import Mathlib

/-!
Verification of the `TrindadeGovernor` core (src/governor.py): a risk-gated,
HMAC-signed, append-only action ledger with full-history integrity checking.

Shallow embedding conventions:
* The sqlite `traces` table is modelled as an insertion-ordered list of
  `(entry, signature)` string pairs held in the governor state; the implicit
  AUTOINCREMENT sequence number of the entry at list index `i` is `i + 1`.
* `hmac.new(secret, m, sha256).hexdigest()` and `hashlib.sha256(r).hexdigest()`
  are calls into external libraries, not code of this repository; they are
  modelled by an abstract `Crypto` record of pure functions (a MAC is a pure
  function of key and message; a hash is a pure function of its input).
  `hmac.compare_digest` on two hex strings is functionally string equality.
* `time.time()` and the entropy consumed by `secrets.token_hex(8)` are
  nondeterministic inputs; they are passed in explicitly (the rendered
  numeric timestamp as a string token, the entropy as a list of bytes).
  The hex encoding performed by `token_hex` is modelled by `tokenHex`.
* Python truthiness of an `Optional[str]` field (`not self.intent_declared`,
  `not self.liability_link`) is `pyTruthy`: `None` and `""` are falsy.
* A raised exception is an `Except.error`; the state observable after a call
  that raised is the unmodified receiver (`execute_action_state`).
-/

/-- `RiskLevel` from src/governor.py lines 11-17: an `IntEnum` with ascending
values WILD=0, DECLARED=1, TRACEABLE=2, CONSTRAINED=3, LIABLE=4, SOVEREIGN=5. -/
inductive RiskLevel where
  | WILD
  | DECLARED
  | TRACEABLE
  | CONSTRAINED
  | LIABLE
  | SOVEREIGN
  deriving DecidableEq, Repr

/-- The integer value of a `RiskLevel` (the `IntEnum` value). -/
def RiskLevel.val : RiskLevel → Nat
  | .WILD => 0
  | .DECLARED => 1
  | .TRACEABLE => 2
  | .CONSTRAINED => 3
  | .LIABLE => 4
  | .SOVEREIGN => 5

/-- The Python exception raised by `execute_action` (line 98). The spec's
`BlockedError` corresponds to this `PermissionError`. -/
inductive PyError where
  | PermissionError (msg : String)
  deriving DecidableEq, Repr

/-- External cryptographic primitives used by src/governor.py: the keyed MAC
`hmac.new(secret, msg, hashlib.sha256).hexdigest()` and the bare hash
`hashlib.sha256(x).hexdigest()`. They are library code, not repository code,
so they enter the model as an abstract pair of pure functions. -/
structure Crypto where
  hmacSha256Hex : String → String → String
  sha256Hex : String → String

/-- The mutable state of a `TrindadeGovernor` instance (src/governor.py
lines 28-34), with the sqlite `traces` table inlined as `db`: an
insertion-ordered list of `(entry, signature)` rows. -/
structure GovState where
  agent_id : String
  secret : String
  liability_link : Option String
  intent_declared : Option String
  db : List (String × String)
  deriving DecidableEq, Repr

/-- Python truthiness of an `Optional[str]`: `None` and the empty string are
falsy; every non-empty string is truthy. -/
def pyTruthy : Option String → Bool
  | none => false
  | some s => !(s == "")

/-- `TrindadeGovernor.__init__` (lines 28-34): stores the fields verbatim and
initialises storage. No validation of `secret_key` is performed by the code.
`db0` is the pre-existing content of the database file (`[]` for a fresh
session, since `_init_db` only creates the table if absent). -/
def TrindadeGovernor.init (agent_id secret_key : String)
    (liability_link : Option String) (db0 : List (String × String)) : GovState :=
  { agent_id := agent_id
    secret := secret_key
    liability_link := liability_link
    intent_declared := none
    db := db0 }

/-- `declare_intent` (lines 48-51): unconditionally overwrites
`intent_declared` with the given objective. -/
def declare_intent (s : GovState) (objective : String) : GovState :=
  { s with intent_declared := some objective }

/-- `_sign_payload` (lines 53-55): HMAC-SHA256 of the payload under the
instance secret, hex-encoded. -/
def sign_payload (C : Crypto) (s : GovState) (payload : String) : String :=
  C.hmacSha256Hex s.secret payload

/-- One hexadecimal digit character, lower-case (the alphabet used by both
`hexdigest()` and `secrets.token_hex`). -/
def hexDigitChar (n : Nat) : Char :=
  if n < 10 then Char.ofNat (48 + n) else Char.ofNat (97 + (n - 10))

/-- One byte rendered as two lower-case hex characters. -/
def byteToHex (b : Nat) : String :=
  String.mk [hexDigitChar (b / 16 % 16), hexDigitChar (b % 16)]

/-- `secrets.token_hex` applied to the given entropy bytes: each byte becomes
two lower-case hex characters. The code calls it with 8 fresh random bytes
(line 61), producing a 16-character hex nonce. -/
def tokenHex : List Nat → String
  | [] => ""
  | b :: rest => byteToHex b ++ tokenHex rest

/-- Four-hex-digit rendering of a 16-bit value, used for `\u` escapes. -/
def u16HexDigits (n : Nat) : String :=
  String.mk [hexDigitChar (n / 4096 % 16), hexDigitChar (n / 256 % 16),
    hexDigitChar (n / 16 % 16), hexDigitChar (n % 16)]

/-- `json.dumps` escaping of one character (default `ensure_ascii=True`):
quote and backslash are backslash-escaped, the named control escapes are used
for \n \r \t \b \f, all other characters outside printable ASCII are
`\uXXXX`-escaped (astral code points as a surrogate pair). -/
def escapeChar (c : Char) : String :=
  if c = '"' then "\\\""
  else if c = '\\' then "\\\\"
  else if c = '\n' then "\\n"
  else if c = '\r' then "\\r"
  else if c = '\t' then "\\t"
  else if c.toNat = 8 then "\\b"
  else if c.toNat = 12 then "\\f"
  else if c.toNat < 32 ∨ c.toNat > 126 then
    if c.toNat ≤ 65535 then "\\u" ++ u16HexDigits c.toNat
    else
      "\\u" ++ u16HexDigits (55296 + (c.toNat - 65536) / 1024) ++
      "\\u" ++ u16HexDigits (56320 + (c.toNat - 65536) % 1024)
  else String.singleton c

/-- A Python string as a JSON string literal (`json.dumps` serialization). -/
def jsonStr (s : String) : String :=
  "\"" ++ String.join (s.data.map escapeChar) ++ "\""

/-- An `Optional[str]` as a JSON value: `None` serializes as `null`. -/
def jsonOptStr : Option String → String
  | none => "null"
  | some s => jsonStr s

/-- Insert a key-value pair into a key-sorted list, keeping keys ascending. -/
def insertByKey (p : String × String) : List (String × String) → List (String × String)
  | [] => [p]
  | q :: rest => if p.1 < q.1 then p :: q :: rest else q :: insertByKey p rest

/-- Sort a key-value list by key, ascending (the effect of
`json.dumps(..., sort_keys=True)` on a dict's items). -/
def sortByKey : List (String × String) → List (String × String)
  | [] => []
  | p :: rest => insertByKey p (sortByKey rest)

/-- `json.dumps(data, sort_keys=True)` for a flat dict whose values are
already serialized JSON value strings: keys sorted ascending, default
separators (comma-space between items, colon-space after each key). -/
def dumpsSortedKeys (kvs : List (String × String)) : String :=
  "\x7b" ++ String.intercalate ", "
    ((sortByKey kvs).map fun kv => jsonStr kv.1 ++ ": " ++ kv.2) ++ "\x7d"

/-- The `data` dict built by `_generate_trace` (lines 59-67), in the source's
insertion order, each value already serialized: the rendered timestamp token
`t_repr`, the hex nonce from 8 entropy bytes, the agent id, the action name,
the payload, the SHA-256 digest of the result, and the nullable liability
link. -/
def trace_record_fields (C : Crypto) (s : GovState) (t_repr : String)
    (entropy : List Nat) (action payload result : String) : List (String × String) :=
  [("t", t_repr),
   ("nonce", jsonStr (tokenHex entropy)),
   ("aid", jsonStr s.agent_id),
   ("act", jsonStr action),
   ("pay", jsonStr payload),
   ("res", jsonStr (C.sha256Hex result)),
   ("lib", jsonOptStr s.liability_link)]

/-- `json_data` of `_generate_trace` (line 68): the canonical serialization
of the trace record, `json.dumps(data, sort_keys=True)`. -/
def canonical_entry (C : Crypto) (s : GovState) (t_repr : String)
    (entropy : List Nat) (action payload result : String) : String :=
  dumpsSortedKeys (trace_record_fields C s t_repr entropy action payload result)

/-- The `(entry, signature)` row inserted by `_generate_trace` (line 72). -/
def new_entry (C : Crypto) (s : GovState) (t_repr : String)
    (entropy : List Nat) (action payload result : String) : String × String :=
  let j := canonical_entry C s t_repr entropy action payload result
  (j, sign_payload C s j)

/-- `_generate_trace` (lines 57-74): builds the canonical record, signs it,
appends the row to storage, and returns the `json.sig` handle. -/
def generate_trace (C : Crypto) (s : GovState) (t_repr : String)
    (entropy : List Nat) (action payload result : String) : GovState × String :=
  let e := new_entry C s t_repr entropy action payload result
  ({ s with db := s.db ++ [e] }, e.1 ++ "." ++ e.2)

/-- The scan loop of `verify_audit_integrity` (lines 80-82): walks the rows
in insertion order, recomputes each signature over the stored entry text, and
returns `false` at the first row whose stored signature differs
(`hmac.compare_digest` on hex strings is functionally string equality). -/
def verifyEntries (C : Crypto) (secret : String) : List (String × String) → Bool
  | [] => true
  | (entry, signature) :: rest =>
    if C.hmacSha256Hex secret entry == signature then verifyEntries C secret rest
    else false

/-- `verify_audit_integrity` (lines 76-83): full-history check over the
stored rows. The Python method only executes a read-only SELECT, so it is a
pure function of the state: it mutates neither the ledger nor the governor. -/
def verify_audit_integrity (C : Crypto) (s : GovState) : Bool :=
  verifyEntries C s.secret s.db

/-- `assign_risk` (lines 85-93): the risk-lattice decision list, evaluated
top to bottom, first match wins. `not self.intent_declared` and
`not self.liability_link` are Python truthiness tests (`pyTruthy`); the
ledger entry count is the length of `db`. -/
def assign_risk (s : GovState) : RiskLevel :=
  if !pyTruthy s.intent_declared then RiskLevel.WILD
  else if s.db.length == 0 then RiskLevel.DECLARED
  else if !pyTruthy s.liability_link then RiskLevel.TRACEABLE
  else RiskLevel.LIABLE

/-- `execute_action` (lines 95-105): refuses with `PermissionError` when the
current risk is `WILD` (before any mutation), otherwise computes
`result = "OK_" + action_name`, records the signed trace, and returns the
result together with the post state. -/
def execute_action (C : Crypto) (s : GovState) (t_repr : String)
    (entropy : List Nat) (action_name payload : String) :
    Except PyError (GovState × String) :=
  if assign_risk s == RiskLevel.WILD then
    Except.error (PyError.PermissionError "[CRITICAL] Blocked: WILD mode detected.")
  else
    let result := "OK_" ++ action_name
    let p := generate_trace C s t_repr entropy action_name payload result
    Except.ok (p.1, result)

/-- The governor state observable after an `execute_action` call: the new
state on success, the unmodified receiver when the call raised. -/
def execute_action_state (C : Crypto) (s : GovState) (t_repr : String)
    (entropy : List Nat) (action_name payload : String) : GovState :=
  match execute_action C s t_repr entropy action_name payload with
  | Except.ok p => p.1
  | Except.error _ => s

/-- States of a single governed session: constructed over a fresh store
(spec §3 lifecycle: one `GovernorState` per session, entries created only by
successful executions), then driven by `declare_intent` and successful
`execute_action` calls. `verify_audit_integrity` and `assign_risk` are
read-only and add no transitions. -/
inductive Reachable (C : Crypto) : GovState → Prop
  | init (agent_id secret_key : String) (liability_link : Option String) :
      Reachable C (TrindadeGovernor.init agent_id secret_key liability_link [])
  | declare (s : GovState) (objective : String) :
      Reachable C s → Reachable C (declare_intent s objective)
  | exec (s s' : GovState) (t_repr : String) (entropy : List Nat)
      (action_name payload r : String) :
      Reachable C s →
      execute_action C s t_repr entropy action_name payload = Except.ok (s', r) →
      Reachable C s'

/-- Is a character a lower-case hexadecimal digit? -/
def isHexChar (c : Char) : Bool :=
  c.isDigit || ('a' ≤ c && c ≤ 'f')

/-- A concrete instantiation of the external crypto primitives, used to
evaluate the model on concrete inputs (any pure pair of functions will do;
the development never relies on properties of the MAC beyond determinism). -/
def wCrypto : Crypto :=
  ⟨fun k m => k ++ "|" ++ m, fun r => "h" ++ r⟩

/-- Concrete entropy: 8 bytes for `secrets.token_hex(8)`. -/
def wEntropy : List Nat :=
  [0, 17, 34, 51, 68, 85, 102, 255]

/-- A freshly constructed governor with no liability link. -/
def wFresh : GovState :=
  TrindadeGovernor.init "A1" "k1" none []

/-- The fresh governor after `declare_intent("x")`. -/
def wGov : GovState :=
  declare_intent wFresh "x"

/-- The declared governor after one successful `execute_action("A", "p")`. -/
def wGovAfter : GovState :=
  { wGov with db := wGov.db ++ [new_entry wCrypto wGov "1.0" wEntropy "A" "p" "OK_A"] }

/-- A governor with a truthy liability link and non-empty history. -/
def wLiableExec : GovState :=
  { agent_id := "A1", secret := "k1", liability_link := some "L1",
    intent_declared := some "x", db := [("e1", "k1|e1")] }

/-- A two-row ledger under secret `"k"` whose FIRST row's stored signature
has been corrupted from `"k|e1"` to `"X"` (direct storage tampering). -/
def c4corruptFirst : GovState :=
  { agent_id := "A1", secret := "k", liability_link := none,
    intent_declared := some "x", db := [("e1", "X"), ("e2", "k|e2")] }

/-- The same two-row ledger with the SECOND row's stored signature corrupted
instead. -/
def c4corruptSecond : GovState :=
  { agent_id := "A1", secret := "k", liability_link := none,
    intent_declared := some "x", db := [("e1", "k|e1"), ("e2", "X")] }

/-- The scan loop result is the conjunction of the per-row signature checks:
early return on the first mismatch computes the same boolean as checking
every row. -/
theorem verifyEntries_eq_all (C : Crypto) (k : String) (l : List (String × String)) :
    verifyEntries C k l = l.all fun e => C.hmacSha256Hex k e.1 == e.2 := by
  induction l with
  | nil => rfl
  | cons e rest ih =>
    obtain ⟨entry, signature⟩ := e
    cases hb : C.hmacSha256Hex k entry == signature <;>
      simp [verifyEntries, hb, ih]

/-- Splitting the scan over an append of row lists. -/
theorem verifyEntries_append (C : Crypto) (k : String) (l1 l2 : List (String × String)) :
    verifyEntries C k (l1 ++ l2) = (verifyEntries C k l1 && verifyEntries C k l2) := by
  simp [verifyEntries_eq_all, List.all_append]

/-- Inversion of a successful `execute_action`: the only non-raising path
appends exactly the freshly signed row and returns `"OK_" + action_name`. -/
theorem execute_action_ok (C : Crypto) (s : GovState) (t_repr : String)
    (entropy : List Nat) (a p : String) (s' : GovState) (r : String)
    (h : execute_action C s t_repr entropy a p = Except.ok (s', r)) :
    s' = { s with db := s.db ++ [new_entry C s t_repr entropy a p ("OK_" ++ a)] } ∧
    r = "OK_" ++ a := by
  by_cases hw : (assign_risk s == RiskLevel.WILD) = true
  · simp [execute_action, hw] at h
  · simp only [execute_action, hw, Bool.false_eq_true, if_false, generate_trace,
      Except.ok.injEq, Prod.mk.injEq] at h
    exact ⟨h.1.symm, h.2.symm⟩

/-- Session invariant: in every state of a session started on a fresh store,
every stored row's signature is the MAC of its entry under the session's
secret, so the full-history check succeeds. -/
theorem reachable_entries_valid (C : Crypto) (s : GovState) (h : Reachable C s) :
    verify_audit_integrity C s = true := by
  induction h with
  | init a k l => rfl
  | declare s o _ ih =>
    simpa [verify_audit_integrity, declare_intent] using ih
  | exec s s' t e a p r _ hok ih =>
    obtain ⟨hs', -⟩ := execute_action_ok C s t e a p s' r hok
    subst hs'
    simp only [verify_audit_integrity] at ih ⊢
    simp [verifyEntries_append, ih, verifyEntries, new_entry, sign_payload]

/-- Every value `hexDigitChar` produces on an input below 16 is a lower-case
hex digit. -/
theorem hexDigitChar_isHex : ∀ n < 16, isHexChar (hexDigitChar n) = true := by
  decide

/-- A rendered byte is two characters long. -/
theorem byteToHex_length (b : Nat) : (byteToHex b).length = 2 := rfl

/-- `token_hex` renders each entropy byte as two characters. -/
theorem tokenHex_length (bytes : List Nat) :
    (tokenHex bytes).length = 2 * bytes.length := by
  induction bytes with
  | nil => rfl
  | cons b rest ih =>
    simp [tokenHex, String.length_append, byteToHex_length, ih]
    omega

/-- Every character of a `token_hex` rendering is a lower-case hex digit. -/
theorem tokenHex_chars_hex (bytes : List Nat) :
    ∀ c ∈ (tokenHex bytes).data, isHexChar c = true := by
  induction bytes with
  | nil => intro c hc; simp [tokenHex] at hc
  | cons b rest ih =>
    intro c hc
    simp only [tokenHex, String.data_append] at hc
    rcases List.mem_append.mp hc with h | h
    · have h2 : c = hexDigitChar (b / 16 % 16) ∨ c = hexDigitChar (b % 16) := by
        simpa [byteToHex] using h
      rcases h2 with h2 | h2 <;> subst h2
      · exact hexDigitChar_isHex _ (Nat.mod_lt _ (by norm_num))
      · exact hexDigitChar_isHex _ (Nat.mod_lt _ (by norm_num))
    · exact ih c h

/-- C1: `assign_risk` is a strict top-to-bottom decision list, first match
wins: WILD when `intent_declared` is unset (Python-falsy: `None` or the empty
string, the code's `not self.intent_declared` test — cf. C9), otherwise
DECLARED when the ledger entry count is zero, otherwise TRACEABLE when
`liability_link` is unset, otherwise LIABLE. -/
theorem C1_assign_risk_decision_list (s : GovState) :
    (pyTruthy s.intent_declared = false → assign_risk s = RiskLevel.WILD) ∧
    (pyTruthy s.intent_declared = true → s.db.length = 0 →
      assign_risk s = RiskLevel.DECLARED) ∧
    (pyTruthy s.intent_declared = true → s.db.length ≠ 0 →
      pyTruthy s.liability_link = false → assign_risk s = RiskLevel.TRACEABLE) ∧
    (pyTruthy s.intent_declared = true → s.db.length ≠ 0 →
      pyTruthy s.liability_link = true → assign_risk s = RiskLevel.LIABLE) := by
  refine ⟨fun h1 => ?_, fun h1 h2 => ?_, fun h1 h2 h3 => ?_, fun h1 h2 h3 => ?_⟩ <;>
    simp [assign_risk, h1, *]

/-- C1 witness: the four branches of the decision list, each at a concrete
governor state (fresh; declared with empty ledger; declared with history and
no liability link; declared with history and liability link). -/
theorem C1_witness :
    assign_risk wFresh = RiskLevel.WILD ∧
    assign_risk wGov = RiskLevel.DECLARED ∧
    assign_risk wGovAfter = RiskLevel.TRACEABLE ∧
    assign_risk wLiableExec = RiskLevel.LIABLE :=
  ⟨(C1_assign_risk_decision_list wFresh).1 rfl,
   (C1_assign_risk_decision_list wGov).2.1 rfl rfl,
   (C1_assign_risk_decision_list wGovAfter).2.2.1 rfl (by decide) rfl,
   (C1_assign_risk_decision_list wLiableExec).2.2.2 rfl (by decide) rfl⟩

/-- C2: whenever `intent_declared` is unset (Python-falsy), `execute_action`
raises `PermissionError` (the spec's `BlockedError`) with the WILD-mode
message, before any mutation: the observable post state is the unchanged
receiver, so in particular no ledger row is written. -/
theorem C2_wild_block (C : Crypto) (s : GovState) (t_repr : String)
    (entropy : List Nat) (action_name payload : String)
    (h : pyTruthy s.intent_declared = false) :
    execute_action C s t_repr entropy action_name payload =
      Except.error (PyError.PermissionError "[CRITICAL] Blocked: WILD mode detected.") ∧
    execute_action_state C s t_repr entropy action_name payload = s := by
  have hw : assign_risk s = RiskLevel.WILD := by simp [assign_risk, h]
  refine ⟨?_, ?_⟩
  · simp [execute_action, hw]
  · simp [execute_action_state, execute_action, hw]

/-- C2 witness: a freshly constructed governor (intent never declared) at a
concrete action request. -/
theorem C2_witness :
    execute_action wCrypto wFresh "1.0" wEntropy "A" "p" =
      Except.error (PyError.PermissionError "[CRITICAL] Blocked: WILD mode detected.") ∧
    execute_action_state wCrypto wFresh "1.0" wEntropy "A" "p" = wFresh :=
  C2_wild_block wCrypto wFresh "1.0" wEntropy "A" "p" rfl

/-- C3: at every state of a session (constructed over a fresh store, then
driven by the public operations), a successful `execute_action` appends
exactly one new row to the ledger — the new store is the old store plus one
trailing entry — and `verify_audit_integrity` run immediately afterwards on
the resulting state succeeds. -/
theorem C3_append_one_and_verify (C : Crypto) (s s' : GovState) (t_repr : String)
    (entropy : List Nat) (a p r : String) (hreach : Reachable C s)
    (h : execute_action C s t_repr entropy a p = Except.ok (s', r)) :
    s'.db = s.db ++ [new_entry C s t_repr entropy a p ("OK_" ++ a)] ∧
    s'.db.length = s.db.length + 1 ∧
    verify_audit_integrity C s' = true := by
  obtain ⟨hs', -⟩ := execute_action_ok C s t_repr entropy a p s' r h
  refine ⟨by rw [hs'], by rw [hs']; simp, ?_⟩
  exact reachable_entries_valid C s' (Reachable.exec s s' t_repr entropy a p r hreach h)

/-- C3 witness: the concrete session of spec Scenario A (construct, declare
intent, execute one action), with concrete crypto primitives. -/
theorem C3_witness :
    wGovAfter.db = wGov.db ++ [new_entry wCrypto wGov "1.0" wEntropy "A" "p" "OK_A"] ∧
    wGovAfter.db.length = wGov.db.length + 1 ∧
    verify_audit_integrity wCrypto wGovAfter = true :=
  C3_append_one_and_verify wCrypto wGov wGovAfter "1.0" wEntropy "A" "p" "OK_A"
    (Reachable.declare wFresh "x" (Reachable.init "A1" "k1" none)) rfl

/-- C4 counterexample: `verify_audit_integrity` returns a bare boolean
(lines 76-83 return `False` or `True`), so its failure result cannot
reference the corrupted entry's sequence number. Concretely: on the same
two-row ledger, corrupting the signature of sequence number 1 and corrupting
the signature of sequence number 2 produce the identical result `false`, so
the returned failure carries no information about which sequence number
failed. -/
theorem C4_counterexample :
    verify_audit_integrity wCrypto c4corruptFirst = false ∧
    verify_audit_integrity wCrypto c4corruptSecond = false ∧
    verify_audit_integrity wCrypto c4corruptFirst =
      verify_audit_integrity wCrypto c4corruptSecond :=
  ⟨rfl, rfl, rfl⟩

/-- C4 amended: for a ledger that verified before the tampering, corrupting
the stored signature of exactly one row (at sequence number `l1.length + 1`)
makes `verify_audit_integrity` return failure (`false`), and every other
row's stored signature still matches its recomputed one. The result does not
identify the failing sequence number (see the counterexample). -/
theorem C4_single_corruption_detected (C : Crypto) (k : String)
    (l1 l2 : List (String × String)) (entry goodSig badSig : String)
    (hvalid : verifyEntries C k (l1 ++ (entry, goodSig) :: l2) = true)
    (hbad : badSig ≠ goodSig) :
    verifyEntries C k (l1 ++ (entry, badSig) :: l2) = false ∧
    (∀ e ∈ l1, (C.hmacSha256Hex k e.1 == e.2) = true) ∧
    (∀ e ∈ l2, (C.hmacSha256Hex k e.1 == e.2) = true) := by
  rw [verifyEntries_eq_all] at hvalid
  simp only [List.all_append, List.all_cons, Bool.and_eq_true, List.all_eq_true] at hvalid
  obtain ⟨h1, hmid, h2⟩ := hvalid
  have hmac : C.hmacSha256Hex k entry = goodSig := by simpa using hmid
  refine ⟨?_, h1, h2⟩
  rw [verifyEntries_eq_all]
  simp only [List.all_append, List.all_cons, Bool.and_eq_false_iff]
  refine Or.inr (Or.inl ?_)
  have hne : goodSig ≠ badSig := fun h => hbad h.symm
  simp [hmac, hne]

/-- C4 witness: a concrete two-row valid ledger under secret `"k"`, with the
second row's signature replaced by `"X"`: verification fails and the first
row still verifies. -/
theorem C4_witness :
    verifyEntries wCrypto "k" ([("e1", "k|e1")] ++ ("e2", "X") :: []) = false ∧
    (∀ e ∈ [("e1", "k|e1")], (wCrypto.hmacSha256Hex "k" e.1 == e.2) = true) ∧
    (∀ e ∈ ([] : List (String × String)), (wCrypto.hmacSha256Hex "k" e.1 == e.2) = true) :=
  C4_single_corruption_detected wCrypto "k" [("e1", "k|e1")] [] "e2" "k|e2" "X" rfl
    (by decide)

/-- C5: the record built by `_generate_trace` serializes with exactly the
seven keys `act, aid, lib, nonce, pay, res, t`, in strictly ascending
(lexicographic) key order; the canonical serialization is byte-deterministic
in the field values (two governors agreeing on the serialized fields produce
the identical byte string); and the nonce is `token_hex(8)`: a hex string of
exactly 16 (hence at least 16) lower-case hex characters. -/
theorem C5_canonical_record_form (C : Crypto) (s1 s2 : GovState) (t_repr : String)
    (entropy : List Nat) (action payload result : String)
    (haid : s1.agent_id = s2.agent_id) (hlib : s1.liability_link = s2.liability_link)
    (hlen : entropy.length = 8) :
    (sortByKey (trace_record_fields C s1 t_repr entropy action payload result)).map
        Prod.fst = ["act", "aid", "lib", "nonce", "pay", "res", "t"] ∧
    List.Chain' (fun a b : String => a < b)
      ((sortByKey (trace_record_fields C s1 t_repr entropy action payload result)).map
        Prod.fst) ∧
    canonical_entry C s1 t_repr entropy action payload result =
      canonical_entry C s2 t_repr entropy action payload result ∧
    (tokenHex entropy).length = 16 ∧
    (∀ c ∈ (tokenHex entropy).data, isHexChar c = true) := by
  have hkeys : (sortByKey (trace_record_fields C s1 t_repr entropy action payload
      result)).map Prod.fst = ["act", "aid", "lib", "nonce", "pay", "res", "t"] := by
    simp +decide [sortByKey, trace_record_fields, insertByKey]
  refine ⟨hkeys, ?_, ?_, ?_, tokenHex_chars_hex entropy⟩
  · rw [hkeys]
    simp +decide [List.chain'_cons]
  · simp [canonical_entry, trace_record_fields, haid, hlib]
  · rw [tokenHex_length, hlen]

/-- C5 witness: concrete field values and a concrete 8-byte entropy input. -/
theorem C5_witness :
    (sortByKey (trace_record_fields wCrypto wGov "1.0" wEntropy "A" "p" "OK_A")).map
        Prod.fst = ["act", "aid", "lib", "nonce", "pay", "res", "t"] ∧
    List.Chain' (fun a b : String => a < b)
      ((sortByKey (trace_record_fields wCrypto wGov "1.0" wEntropy "A" "p" "OK_A")).map
        Prod.fst) ∧
    canonical_entry wCrypto wGov "1.0" wEntropy "A" "p" "OK_A" =
      canonical_entry wCrypto wGov "1.0" wEntropy "A" "p" "OK_A" ∧
    (tokenHex wEntropy).length = 16 ∧
    (∀ c ∈ (tokenHex wEntropy).data, isHexChar c = true) :=
  C5_canonical_record_form wCrypto wGov wGov "1.0" wEntropy "A" "p" "OK_A" rfl rfl rfl

/-- C6: the code accepts an empty secret key. `__init__` (lines 28-34)
performs no validation of `secret_key`: for every agent id and liability
link, construction with the empty secret succeeds and yields a fully formed
governor holding the empty signing key — no `ConfigurationError` exists in
the code, contradicting the claim that an empty key must be rejected. -/
theorem C6_empty_secret_accepted (agent_id : String) (lib : Option String) :
    (TrindadeGovernor.init agent_id "" lib []).secret = "" ∧
    (TrindadeGovernor.init agent_id "" lib []).agent_id = agent_id ∧
    (TrindadeGovernor.init agent_id "" lib []).intent_declared = none ∧
    (TrindadeGovernor.init agent_id "" lib []).db = [] :=
  ⟨rfl, rfl, rfl, rfl⟩

/-- C8: in a session whose governor carries a truthy liability link,
`assign_risk` never returns TRACEABLE: every state with a truthy
`liability_link` yields WILD, DECLARED or LIABLE, and both `declare_intent`
and successful `execute_action` preserve the (immutable) liability link, so
this holds across the whole session. -/
theorem C8_liable_never_traceable (C : Crypto) (s : GovState)
    (h : pyTruthy s.liability_link = true) :
    assign_risk s ≠ RiskLevel.TRACEABLE ∧
    (assign_risk s = RiskLevel.WILD ∨ assign_risk s = RiskLevel.DECLARED ∨
      assign_risk s = RiskLevel.LIABLE) ∧
    (∀ o, (declare_intent s o).liability_link = s.liability_link) ∧
    (∀ t_repr entropy a p s' r,
      execute_action C s t_repr entropy a p = Except.ok (s', r) →
      s'.liability_link = s.liability_link) := by
  have hcases : assign_risk s = RiskLevel.WILD ∨ assign_risk s = RiskLevel.DECLARED ∨
      assign_risk s = RiskLevel.LIABLE := by
    by_cases h1 : pyTruthy s.intent_declared = true
    · by_cases h2 : s.db.length = 0
      · right; left; simp [assign_risk, h1, h2]
      · right; right; simp [assign_risk, h1, h2, h]
    · left; simp [assign_risk, Bool.not_eq_true _ ▸ h1]
  refine ⟨?_, hcases, fun o => rfl, fun t_repr entropy a p s' r hok => ?_⟩
  · rcases hcases with hc | hc | hc <;> simp [hc]
  · obtain ⟨hs', -⟩ := execute_action_ok C s t_repr entropy a p s' r hok
    rw [hs']

/-- C8 witness: a concrete governor with liability link `"L1"`, declared
intent and non-empty history (the LIABLE point of spec Scenario B). -/
theorem C8_witness :
    assign_risk wLiableExec ≠ RiskLevel.TRACEABLE ∧
    (assign_risk wLiableExec = RiskLevel.WILD ∨
      assign_risk wLiableExec = RiskLevel.DECLARED ∨
      assign_risk wLiableExec = RiskLevel.LIABLE) ∧
    (∀ o, (declare_intent wLiableExec o).liability_link = wLiableExec.liability_link) ∧
    (∀ t_repr entropy a p s' r,
      execute_action wCrypto wLiableExec t_repr entropy a p = Except.ok (s', r) →
      s'.liability_link = wLiableExec.liability_link) :=
  C8_liable_never_traceable wCrypto wLiableExec rfl

/-- C9: declaring the empty string as objective leaves the session ungated:
`intent_declared` is set to `""`, which the truthiness test of `assign_risk`
treats like an undeclared intent, so `assign_risk` still returns WILD and
`execute_action` still raises the WILD-mode `PermissionError`. -/
theorem C9_empty_intent_stays_wild (C : Crypto) (s : GovState) (t_repr : String)
    (entropy : List Nat) (a p : String) :
    pyTruthy (declare_intent s "").intent_declared = false ∧
    assign_risk (declare_intent s "") = RiskLevel.WILD ∧
    execute_action C (declare_intent s "") t_repr entropy a p =
      Except.error (PyError.PermissionError "[CRITICAL] Blocked: WILD mode detected.") := by
  have hf : pyTruthy (declare_intent s "").intent_declared = false := rfl
  have hw : assign_risk (declare_intent s "") = RiskLevel.WILD := by
    simp [assign_risk, hf]
  exact ⟨hf, hw, by simp [execute_action, hw]⟩

/-- C10: on an empty ledger the full-history check scans zero rows and
returns `true`. The Python method runs a single read-only SELECT, which the
embedding reflects by `verify_audit_integrity` being a pure function of the
state: no ledger row and no governor field is modified by the call. -/
theorem C10_empty_ledger_verifies (C : Crypto) (s : GovState) (h : s.db = []) :
    verify_audit_integrity C s = true := by
  simp [verify_audit_integrity, h, verifyEntries]

/-- C10 witness: a freshly constructed governor over an empty store. -/
theorem C10_witness : verify_audit_integrity wCrypto wFresh = true :=
  C10_empty_ledger_verifies wCrypto wFresh rfl
